import Mathlib

/-!
Verification of the EmailManager daily-report pipeline.

The development shallowly embeds the Python sources:
  summarizer.py   (EmailSummarizer)
  gmail_utils.py  (GmailFetcher)
  email_utils.py  (EmailSender)
  main.py         (FastAPI endpoints and daily_email_report)

External collaborators (the LLM, the Gmail API service handle, the SMTP
transport, the Jinja2 template environment, the pydantic e-mail validator)
are passed in as explicit function arguments, so that each embedded
function is a total Lean function of its inputs and of the collaborator
behaviour.  Every Python `try/except` that converts an exception into a
return value is embedded by giving the guarded call an `Except` result
type and matching on it.
-/

namespace EmailManager

/-- Python string slicing `s[:n]`: the first `n` characters of `s`
(the whole string when it is shorter). -/
def pyTake (s : String) (n : Nat) : String := ⟨s.data.take n⟩

/-! ## Data model -/

/-- A Python e-mail dict as it flows through the pipeline.  `dict.get`
with a default is embedded as `Option.getD`, so a field is `none` exactly
when the key is absent from the dict. -/
structure EmailDict where
  subject : Option String
  snippet : Option String
  content : Option String
  sender : Option String
  message_id : Option String
deriving DecidableEq

/-- One entry of the list returned by `summarize_emails_batch`
(summarizer.py lines 131-134): a dict with `subject` and `summary` keys. -/
structure Digest where
  subject : String
  summary : String
deriving DecidableEq

/-- The success/failure dict returned by `EmailSender.send_email`. -/
structure SendResult where
  success : Bool
  message : String
deriving DecidableEq

/-- The `report_data` dict assembled by `daily_email_report`
(main.py lines 215-220). -/
structure ReportData where
  date : String
  timestamp : String
  total_emails : Nat
  summaries : List Digest
deriving DecidableEq

/-! ## Summarizer (summarizer.py) -/

/-- The behaviour of `self.llm.invoke` on a prompt: the response content,
or (`Except.error`) the message of the exception it raised. -/
def LLM : Type := String → Except String String

/-- The summarization prompt built at summarizer.py lines 75-83
(an f-string interpolating the subject and content). -/
def summarizePrompt (subject content : String) : String :=
  "Please provide a concise summary of the following email in 2-3 sentences.\n"
    ++ "Focus on the main purpose, key information, and any action items.\n\n"
    ++ "Subject: " ++ subject ++ "\nContent: " ++ content ++ "\n\nSummary:\n"

/-- Embeds `EmailSummarizer.summarize_email` (summarizer.py lines 58-103),
additionally reporting how many LLM invocations were made (`0` or `1`).
`llm = none` is the state in which `_initialize_llm` found no usable API
key, so `self.llm` is `None`.  On an LLM exception the function falls back
to the truncated original content (line 103); on success the response is
stripped and any literal `Summary:` is removed (lines 89-95). -/
def summarize_email_run (llm : Option LLM) (subject content : String) :
    String × Nat :=
  match llm with
  | none =>
      ("Unable to summarize - LLM not available. Original content: "
        ++ pyTake content 200 ++ "...", 0)
  | some f =>
      match f (summarizePrompt subject content) with
      | .ok resp => ((resp.trim.replace "Summary:" "").trim, 1)
      | .error _ =>
          ("Summarization failed. Original content: "
            ++ pyTake content 200 ++ "...", 1)

/-- The string returned by `summarize_email` (its observable result). -/
def summarize_email (llm : Option LLM) (subject content : String) : String :=
  (summarize_email_run llm subject content).1

/-- One iteration of the loop of `summarize_emails_batch`
(summarizer.py lines 122-134).  The `try` body is total — dict lookups
use defaults and `summarize_email` converts its own exceptions — so the
fallback `except` branch at lines 136-142 is unreachable in this model. -/
def processEmail (llm : Option LLM) (email : EmailDict) : Digest :=
  let subject := email.subject.getD "No Subject"
  let content := email.snippet.getD (email.content.getD "")
  { subject := subject, summary := summarize_email llm subject content }

/-- Embeds `EmailSummarizer.summarize_emails_batch`
(summarizer.py lines 105-145): early return `[]` on an empty batch,
otherwise one appended digest per input e-mail, in loop order. -/
def summarize_emails_batch (llm : Option LLM) (emails : List EmailDict) :
    List Digest :=
  if emails.isEmpty then []
  else emails.map (processEmail llm)

theorem summarize_emails_batch_eq_map (llm : Option LLM)
    (emails : List EmailDict) :
    summarize_emails_batch llm emails = emails.map (processEmail llm) := by
  cases emails <;> rfl

/-- Claim C1: for every batch of N fetched messages,
`summarize_emails_batch` returns exactly N digests in input order — the
digest at index i is the processed form of the e-mail at index i — and
when the LLM call for an item raises, that item yields the fallback
digest carrying the failure description in its position instead of being
dropped. -/
theorem summarize_batch_count_and_order (llm : Option LLM)
    (emails : List EmailDict) :
    (summarize_emails_batch llm emails).length = emails.length ∧
    (∀ i : Nat, (summarize_emails_batch llm emails)[i]?
        = (emails[i]?).map (processEmail llm)) ∧
    (∀ f : LLM, llm = some f → ∀ (i : Nat) (e : EmailDict) (em : String),
      emails[i]? = some e →
      f (summarizePrompt (e.subject.getD "No Subject")
          (e.snippet.getD (e.content.getD ""))) = .error em →
      (summarize_emails_batch llm emails)[i]?
        = some { subject := e.subject.getD "No Subject",
                 summary := "Summarization failed. Original content: "
                   ++ pyTake (e.snippet.getD (e.content.getD "")) 200
                   ++ "..." }) := by
  refine ⟨?_, ?_, ?_⟩
  · rw [summarize_emails_batch_eq_map]
    exact List.length_map _ _
  · intro i
    rw [summarize_emails_batch_eq_map, List.getElem?_map]
  · intro f hf i e em he hcall
    subst hf
    rw [summarize_emails_batch_eq_map, List.getElem?_map, he]
    simp only [Option.map_some', processEmail, summarize_email,
      summarize_email_run, hcall]

/-- Claim C1 witness: a two-element batch against an LLM that always
raises still yields two digests, the second being the in-place fallback. -/
theorem summarize_batch_count_and_order_witness :
    (summarize_emails_batch
        (some (fun _ => .error "boom"))
        [{ subject := some "s1", snippet := some "c1", content := none,
           sender := none, message_id := none },
         { subject := some "s2", snippet := some "c2", content := none,
           sender := none, message_id := none }])[1]?
      = some { subject := "s2",
               summary := "Summarization failed. Original content: c2..." } := by
  have h := (summarize_batch_count_and_order
      (some (fun _ => .error "boom"))
      [{ subject := some "s1", snippet := some "c1", content := none,
         sender := none, message_id := none },
       { subject := some "s2", snippet := some "c2", content := none,
         sender := none, message_id := none }]).2.2
      (fun _ => .error "boom") rfl 1
      { subject := some "s2", snippet := some "c2", content := none,
        sender := none, message_id := none } "boom" rfl rfl
  exact h

/-- Claim C4: with no LLM configured, `summarize_email` makes zero
outbound calls and returns the unavailability placeholder embedding the
first at-most-200 characters of the original content (a prefix of it). -/
theorem summarize_email_no_llm (subject content : String) :
    summarize_email_run none subject content
      = ("Unable to summarize - LLM not available. Original content: "
          ++ pyTake content 200 ++ "...", 0) ∧
    (pyTake content 200).length ≤ 200 ∧
    (pyTake content 200).data <+: content.data := by
  refine ⟨rfl, ?_, ?_⟩
  · show (content.data.take 200).length ≤ 200
    exact List.length_take_le _ _
  · exact ⟨content.data.drop 200, List.take_append_drop _ _⟩

/-- Claim C10: the digest at position i always carries the subject of the
input e-mail at position i — copied verbatim when the `subject` key is
present, `No Subject` when absent — for every LLM, so the summarizer
never substitutes a model-generated subject. -/
theorem summarize_batch_subject_provenance (llm : Option LLM)
    (emails : List EmailDict) :
    ∀ i : Nat, ((summarize_emails_batch llm emails)[i]?).map Digest.subject
      = (emails[i]?).map (fun e => e.subject.getD "No Subject") := by
  intro i
  rw [summarize_emails_batch_eq_map, List.getElem?_map]
  cases emails[i]? with
  | none => rfl
  | some e => rfl

/-! ## Gmail fetcher (gmail_utils.py) -/

/-- One element of a message's `payload.headers` list. -/
structure GmailHeader where
  name : String
  value : String

/-- The metadata of one fetched message, as returned by
`users().messages().get(...)`: its header list and its `snippet` field
(`none` when the key is absent). -/
structure GmailMessage where
  headers : List GmailHeader
  snippet : Option String

/-- The behaviour of the authenticated Gmail service handle.
`listMessages q n` models `users().messages().list(userId, q=q,
maxResults=n).execute()` followed by `results.get('messages', [])`: the
list of message ids, or the message of the exception the call raised.
`getMessage id` models the per-message
`users().messages().get(...).execute()` call. -/
structure GmailService where
  listMessages : String → Nat → Except String (List String)
  getMessage : String → Except String GmailMessage

/-- The state and collaborators of one `GmailFetcher`: whether
`self.service` is already set, what `self._authenticate()` would return
if invoked, the service handle behaviour, and `fmtDate`, the library
rendering `strftime('%Y/%m/%d')` of a UTC timestamp in seconds. -/
structure GmailFetcherState where
  serviceCached : Bool
  authOk : Bool
  service : GmailService
  fmtDate : Nat → String

/-- The header scan of gmail_utils.py lines 129-136: subject and sender
start at their defaults and each matching header overwrites them. -/
def extractHeaders (headers : List GmailHeader) : String × String :=
  headers.foldl
    (fun acc h =>
      if h.name = "Subject" then (h.value, acc.2)
      else if h.name = "From" then (acc.1, h.value)
      else acc)
    ("No Subject", "Unknown Sender")

/-- The per-message `try` body (gmail_utils.py lines 117-145): fetch the
metadata and build the e-mail dict; an exception from the get call makes
the loop skip this message. -/
def extractMessage (svc : GmailService) (id : String) :
    Except String EmailDict :=
  match svc.getMessage id with
  | .error e => .error e
  | .ok msg =>
      let hs := extractHeaders msg.headers
      .ok { subject := some hs.1,
            snippet := some (msg.snippet.getD "No content available"),
            content := none,
            sender := some hs.2,
            message_id := some id }

/-- The search query built at gmail_utils.py lines 98-103: `now` is
`datetime.utcnow()` as a UTC timestamp in seconds, and
`timedelta(hours=hours)` subtracts `hours * 3600` seconds before the
date is formatted. -/
def fetchQuery (f : GmailFetcherState) (now hours : Nat) : String :=
  "after:" ++ f.fmtDate (now - hours * 3600)

/-- Embeds `GmailFetcher.fetch_recent_emails`
(gmail_utils.py lines 83-156).  If no service is cached and
authentication fails, it returns `[]` (line 95); the outer `try` turns
any listing failure into `[]` (line 156); inside the loop each failing
message is skipped via `continue` (line 149), embedded as `filterMap`
over the per-message `Except`. -/
def fetch_recent_emails (f : GmailFetcherState) (now hours : Nat) :
    List EmailDict :=
  if !f.serviceCached && !f.authOk then []
  else
    match f.service.listMessages (fetchQuery f now hours) 100 with
    | .error _ => []
    | .ok ids => ids.filterMap (fun id => (extractMessage f.service id).toOption)

/-- Claim C5: authentication failure yields the empty list; any error
while listing messages yields the empty list (the error never reaches
the caller, since the function is total); and when listing succeeds the
result keeps exactly the messages whose extraction succeeded, so a
per-message failure skips only that message. -/
theorem fetch_recent_error_isolation (f : GmailFetcherState)
    (now hours : Nat) :
    (f.serviceCached = false → f.authOk = false →
      fetch_recent_emails f now hours = []) ∧
    (∀ e, f.service.listMessages (fetchQuery f now hours) 100 = .error e →
      fetch_recent_emails f now hours = []) ∧
    (∀ ids, f.service.listMessages (fetchQuery f now hours) 100 = .ok ids →
      (f.serviceCached = true ∨ f.authOk = true) →
      fetch_recent_emails f now hours
        = ids.filterMap (fun id => (extractMessage f.service id).toOption)) := by
  refine ⟨?_, ?_, ?_⟩
  · intro hs ha
    simp [fetch_recent_emails, hs, ha]
  · intro e he
    unfold fetch_recent_emails
    rw [he]
    cases h : (!f.serviceCached && !f.authOk) <;> simp
  · intro ids hids hor
    unfold fetch_recent_emails
    rw [hids]
    have : (!f.serviceCached && !f.authOk) = false := by
      rcases hor with h | h <;> simp [h]
    rw [this]
    simp

/-- Claim C5 witness: a concrete fetcher whose authentication fails
returns the empty list. -/
theorem fetch_recent_error_isolation_witness :
    fetch_recent_emails
      { serviceCached := false, authOk := false,
        service := { listMessages := fun _ _ => .error "offline",
                     getMessage := fun _ => .error "offline" },
        fmtDate := fun _ => "1970/01/01" } 0 24 = [] :=
  (fetch_recent_error_isolation
    { serviceCached := false, authOk := false,
      service := { listMessages := fun _ _ => .error "offline",
                   getMessage := fun _ => .error "offline" },
      fmtDate := fun _ => "1970/01/01" } 0 24).1 rfl rfl

/-- Claim C6: provided the Gmail API honours the `maxResults=100` bound
it is passed (an assumption about the external service, not enforced
client-side), `fetch_recent_emails` returns at most 100 items; and the
server-side query filters by a received-after date derived from
`now - hours`. -/
theorem fetch_recent_bounded (f : GmailFetcherState) (now hours : Nat)
    (hapi : ∀ q n ids, f.service.listMessages q n = .ok ids →
      ids.length ≤ n) :
    (fetch_recent_emails f now hours).length ≤ 100 ∧
    fetchQuery f now hours = "after:" ++ f.fmtDate (now - hours * 3600) := by
  refine ⟨?_, rfl⟩
  unfold fetch_recent_emails
  cases h : (!f.serviceCached && !f.authOk) with
  | true => simp
  | false =>
      simp only [Bool.false_eq_true, if_false]
      cases hl : f.service.listMessages (fetchQuery f now hours) 100 with
      | error e => simp
      | ok ids =>
          calc (ids.filterMap
                  (fun id => (extractMessage f.service id).toOption)).length
              ≤ ids.length := List.length_filterMap_le _ _
            _ ≤ 100 := hapi _ _ _ hl

/-- Claim C6 witness: a concrete service that returns three ids (and in
general never more than asked for) yields a batch of at most 100. -/
theorem fetch_recent_bounded_witness :
    (fetch_recent_emails
      { serviceCached := true, authOk := true,
        service := { listMessages := fun _ n => .ok (["a", "b", "c"].take n),
                     getMessage := fun id =>
                       .ok { headers := [{ name := "Subject", value := id }],
                             snippet := some "hello" } },
        fmtDate := fun _ => "2026/10/11" } 100000 24).length ≤ 100 :=
  (fetch_recent_bounded
    { serviceCached := true, authOk := true,
      service := { listMessages := fun _ n => .ok (["a", "b", "c"].take n),
                   getMessage := fun id =>
                     .ok { headers := [{ name := "Subject", value := id }],
                           snippet := some "hello" } },
      fmtDate := fun _ => "2026/10/11" } 100000 24
    (by
      intro q n ids h
      have : ["a", "b", "c"].take n = ids := by
        exact Except.ok.inj h
      rw [← this]
      exact List.length_take_le _ _)).1

/-! ## Email sender (email_utils.py) -/

/-- Outcome of the SMTP transport block (email_utils.py lines 85-88), as
dispatched by the `except` clauses of lines 96-114: which exception
class, if any, the block raised.  An unreachable transport makes the
`smtplib.SMTP` constructor raise `OSError`, which is not an
`SMTPException` and therefore lands in the generic handler
(`unexpected`). -/
inductive SmtpOutcome where
  | ok
  | authError
  | recipientsRefused
  | smtpError (e : String)
  | unexpected (e : String)

/-- The template branch of `send_email` (email_utils.py lines 64-76):
taken only when both `template_name` and `template_vars` are truthy
(a `None` or empty string / empty dict skips it, per Python truthiness);
`renderT` models `self.template_env.get_template(name).render(vars)`,
returning the rendered HTML or the message of the exception raised
(missing template, render error).  On success the body is replaced and
`is_html` forced to `True`. -/
def templated {V : Type} (vTruthy : V → Bool)
    (renderT : String → V → Except String String) (body : String)
    (is_html : Bool) (template_name : Option String)
    (template_vars : Option V) : Except String (String × Bool) :=
  match template_name, template_vars with
  | some n, some v =>
      if !n.isEmpty && vTruthy v then
        match renderT n v with
        | .ok rendered => .ok (rendered, true)
        | .error e => .error e
      else .ok (body, is_html)
  | _, _ => .ok (body, is_html)

/-- The result of one `send_email` call together with the body attached
to the MIME message (`none` when the call returned before attaching,
i.e. on a templating failure). -/
structure SendAttempt where
  result : SendResult
  attachedBody : Option (String × Bool)

/-- Embeds `EmailSender.send_email` (email_utils.py lines 34-114).
`V` is the type of the `template_vars` dict and `vTruthy` its Python
truthiness.  Every exception the body can raise is converted into a
returned dict by the `except` clauses, so the embedded function is total:
nothing propagates past this boundary. -/
def send_email_run {V : Type} (vTruthy : V → Bool)
    (renderT : String → V → Except String String) (smtp : SmtpOutcome)
    (to_email subject body : String) (is_html : Bool)
    (template_name : Option String) (template_vars : Option V) :
    SendAttempt :=
  match templated vTruthy renderT body is_html template_name template_vars with
  | .error e =>
      { result := { success := false,
                    message := "Template rendering failed: " ++ e },
        attachedBody := none }
  | .ok bh =>
      { result :=
          match smtp with
          | .ok =>
              { success := true,
                message := "Email sent successfully to " ++ to_email }
          | .authError =>
              { success := false,
                message := "SMTP authentication failed. Check email credentials." }
          | .recipientsRefused =>
              { success := false,
                message := "Invalid recipient email address: " ++ to_email }
          | .smtpError e =>
              { success := false, message := "SMTP error occurred: " ++ e }
          | .unexpected e =>
              { success := false,
                message := "Unexpected error sending email: " ++ e },
        attachedBody := some bh }

/-- The dict returned by `send_email` (its observable result). -/
def send_email {V : Type} (vTruthy : V → Bool)
    (renderT : String → V → Except String String) (smtp : SmtpOutcome)
    (to_email subject body : String) (is_html : Bool)
    (template_name : Option String) (template_vars : Option V) :
    SendResult :=
  (send_email_run vTruthy renderT smtp to_email subject body is_html
    template_name template_vars).result

/-- Embeds `EmailSender.send_html_report` (email_utils.py lines 116-133):
a `send_email` call with the digest template and the report data as
variables.  The `report_data` dict is a literal with four keys, hence
always truthy. -/
def send_html_report (renderT : String → ReportData → Except String String)
    (smtp : SmtpOutcome) (to_email : String) (report_data : ReportData) :
    SendAttempt :=
  send_email_run (fun _ => true) renderT smtp to_email
    "Daily Email Summary Report" "" false
    (some "summary_report.html") (some report_data)

/-- The five failure classes of `send_email`. -/
inductive FailClass where
  | auth
  | recipient
  | smtp
  | template
  | unexpected
deriving DecidableEq

/-- Recovers the failure class from the `message` of a failed
`SendResult`: each class writes a message with a class-identifying
constant opening, so the class is decodable from the text alone. -/
def msgClassOf (m : String) : Option FailClass :=
  if "SMTP authentication failed".data <+: m.data then some .auth
  else if "Invalid recipient email address".data <+: m.data then
    some .recipient
  else if "SMTP error occurred".data <+: m.data then some .smtp
  else if "Template rendering failed".data <+: m.data then some .template
  else if "Unexpected error sending email".data <+: m.data then
    some .unexpected
  else none

theorem pre_append {p q : List Char} (t : List Char) (h : p <+: q) :
    p <+: q ++ t := by
  obtain ⟨u, hu⟩ := h
  exact ⟨u ++ t, by rw [← List.append_assoc, hu]⟩

theorem not_pre_of_getElem_ne (q p t : List Char) (i : Nat) (c1 c2 : Char)
    (h1 : p[i]? = some c1) (h2 : q[i]? = some c2) (hne : c1 ≠ c2) :
    ¬ q <+: p ++ t := by
  rintro ⟨u, hu⟩
  have hiq : i < q.length := (List.getElem?_eq_some.mp h2).1
  have hip : i < p.length := (List.getElem?_eq_some.mp h1).1
  have hx := congrArg (fun l => l[i]?) hu
  simp only [List.getElem?_append, if_pos hiq, if_pos hip] at hx
  rw [h1, h2] at hx
  exact hne (Option.some.inj hx).symm

theorem msgClass_recipient (to_email : String) :
    msgClassOf ("Invalid recipient email address: " ++ to_email)
      = some .recipient := by
  have h1 : ¬ "SMTP authentication failed".data
      <+: ("Invalid recipient email address: " ++ to_email).data := by
    rw [String.data_append]
    exact not_pre_of_getElem_ne _ _ _ 0 'I' 'S' (by decide) (by decide)
      (by decide)
  have h2 : "Invalid recipient email address".data
      <+: ("Invalid recipient email address: " ++ to_email).data := by
    rw [String.data_append]
    exact pre_append _ (by decide)
  simp only [msgClassOf, if_neg h1, if_pos h2]

theorem msgClass_smtp (e : String) :
    msgClassOf ("SMTP error occurred: " ++ e) = some .smtp := by
  have h1 : ¬ "SMTP authentication failed".data
      <+: ("SMTP error occurred: " ++ e).data := by
    rw [String.data_append]
    exact not_pre_of_getElem_ne _ _ _ 5 'e' 'a' (by decide) (by decide)
      (by decide)
  have h2 : ¬ "Invalid recipient email address".data
      <+: ("SMTP error occurred: " ++ e).data := by
    rw [String.data_append]
    exact not_pre_of_getElem_ne _ _ _ 0 'S' 'I' (by decide) (by decide)
      (by decide)
  have h3 : "SMTP error occurred".data
      <+: ("SMTP error occurred: " ++ e).data := by
    rw [String.data_append]
    exact pre_append _ (by decide)
  simp only [msgClassOf, if_neg h1, if_neg h2, if_pos h3]

theorem msgClass_template (e : String) :
    msgClassOf ("Template rendering failed: " ++ e) = some .template := by
  have h1 : ¬ "SMTP authentication failed".data
      <+: ("Template rendering failed: " ++ e).data := by
    rw [String.data_append]
    exact not_pre_of_getElem_ne _ _ _ 0 'T' 'S' (by decide) (by decide)
      (by decide)
  have h2 : ¬ "Invalid recipient email address".data
      <+: ("Template rendering failed: " ++ e).data := by
    rw [String.data_append]
    exact not_pre_of_getElem_ne _ _ _ 0 'T' 'I' (by decide) (by decide)
      (by decide)
  have h3 : ¬ "SMTP error occurred".data
      <+: ("Template rendering failed: " ++ e).data := by
    rw [String.data_append]
    exact not_pre_of_getElem_ne _ _ _ 0 'T' 'S' (by decide) (by decide)
      (by decide)
  have h4 : "Template rendering failed".data
      <+: ("Template rendering failed: " ++ e).data := by
    rw [String.data_append]
    exact pre_append _ (by decide)
  simp only [msgClassOf, if_neg h1, if_neg h2, if_neg h3, if_pos h4]

theorem msgClass_unexpected (e : String) :
    msgClassOf ("Unexpected error sending email: " ++ e)
      = some .unexpected := by
  have h1 : ¬ "SMTP authentication failed".data
      <+: ("Unexpected error sending email: " ++ e).data := by
    rw [String.data_append]
    exact not_pre_of_getElem_ne _ _ _ 0 'U' 'S' (by decide) (by decide)
      (by decide)
  have h2 : ¬ "Invalid recipient email address".data
      <+: ("Unexpected error sending email: " ++ e).data := by
    rw [String.data_append]
    exact not_pre_of_getElem_ne _ _ _ 0 'U' 'I' (by decide) (by decide)
      (by decide)
  have h3 : ¬ "SMTP error occurred".data
      <+: ("Unexpected error sending email: " ++ e).data := by
    rw [String.data_append]
    exact not_pre_of_getElem_ne _ _ _ 0 'U' 'S' (by decide) (by decide)
      (by decide)
  have h4 : ¬ "Template rendering failed".data
      <+: ("Unexpected error sending email: " ++ e).data := by
    rw [String.data_append]
    exact not_pre_of_getElem_ne _ _ _ 0 'U' 'T' (by decide) (by decide)
      (by decide)
  have h5 : "Unexpected error sending email".data
      <+: ("Unexpected error sending email: " ++ e).data := by
    rw [String.data_append]
    exact pre_append _ (by decide)
  simp only [msgClassOf, if_neg h1, if_neg h2, if_neg h3, if_neg h4,
    if_pos h5]

/-- Claim C2: `send_email` is total (it returns a `SendResult` dict for
every input and every transport/templating outcome, never raising past
the boundary), each failure class — templating failure, authentication
failure, recipient rejected, transport-level SMTP failure, unexpected
failure (which includes an unreachable transport, whose `OSError` is not
an `SMTPException`) — yields `success = false` with a message from which
`msgClassOf` recovers exactly that class, and messages of different
classes are always distinct strings. -/
theorem send_email_failure_classes {V : Type} (vTruthy : V → Bool)
    (renderT : String → V → Except String String)
    (to_email subject body : String) (is_html : Bool)
    (template_name : Option String) (template_vars : Option V) :
    (∀ e, templated vTruthy renderT body is_html template_name template_vars
        = .error e →
      ∀ smtp, send_email vTruthy renderT smtp to_email subject body is_html
            template_name template_vars
          = { success := false,
              message := "Template rendering failed: " ++ e } ∧
        msgClassOf ("Template rendering failed: " ++ e)
          = some .template) ∧
    (∀ bh, templated vTruthy renderT body is_html template_name template_vars
        = .ok bh →
      (send_email vTruthy renderT .ok to_email subject body is_html
          template_name template_vars
        = { success := true,
            message := "Email sent successfully to " ++ to_email }) ∧
      (send_email vTruthy renderT .authError to_email subject body is_html
          template_name template_vars
        = { success := false,
            message := "SMTP authentication failed. Check email credentials." } ∧
       msgClassOf "SMTP authentication failed. Check email credentials."
        = some .auth) ∧
      (send_email vTruthy renderT .recipientsRefused to_email subject body
          is_html template_name template_vars
        = { success := false,
            message := "Invalid recipient email address: " ++ to_email } ∧
       msgClassOf ("Invalid recipient email address: " ++ to_email)
        = some .recipient) ∧
      (∀ e, send_email vTruthy renderT (.smtpError e) to_email subject body
          is_html template_name template_vars
        = { success := false, message := "SMTP error occurred: " ++ e } ∧
       msgClassOf ("SMTP error occurred: " ++ e) = some .smtp) ∧
      (∀ e, send_email vTruthy renderT (.unexpected e) to_email subject body
          is_html template_name template_vars
        = { success := false,
            message := "Unexpected error sending email: " ++ e } ∧
       msgClassOf ("Unexpected error sending email: " ++ e)
        = some .unexpected)) ∧
    (∀ m1 m2 c1 c2, msgClassOf m1 = some c1 → msgClassOf m2 = some c2 →
      c1 ≠ c2 → m1 ≠ m2) := by
  refine ⟨?_, ?_, ?_⟩
  · intro e he smtp
    refine ⟨?_, msgClass_template e⟩
    simp only [send_email, send_email_run, he]
  · intro bh hbh
    refine ⟨?_, ⟨?_, by decide⟩, ⟨?_, msgClass_recipient to_email⟩,
      fun e => ⟨?_, msgClass_smtp e⟩, fun e => ⟨?_, msgClass_unexpected e⟩⟩
      <;> simp only [send_email, send_email_run, hbh]
  · intro m1 m2 c1 c2 hm1 hm2 hc heq
    rw [heq, hm2] at hm1
    exact hc (Option.some.inj hm1.symm)

/-- Claim C2 witness: with the template branch skipped (no template
given), an authentication failure at a concrete input yields the failing
dict with the class-identifying message. -/
theorem send_email_failure_classes_witness :
    send_email (fun _ : Unit => true) (fun _ _ => .ok "") .authError
        "user@example.com" "hi" "body" false none none
      = { success := false,
          message := "SMTP authentication failed. Check email credentials." } ∧
    msgClassOf "SMTP authentication failed. Check email credentials."
      = some .auth :=
  ((send_email_failure_classes (fun _ : Unit => true) (fun _ _ => .ok "")
      "user@example.com" "hi" "body" false none none).2.1
    ("body", false) rfl).2.1

/-- Claim C9: report rendering is deterministic.  The Jinja2 rendering of
the digest template (a repository resource outside src/) is modelled,
per the spec, as a function `renderT` of the template name and the
variables; under that model, two `send_html_report` calls against the
same template environment with equal `ReportData` attach character-for-
character (hence, by UTF-8 encoding, byte-for-byte) identical document
bodies, whatever the recipient or transport state — nothing outside the
input data, in particular no recomputed timestamp, enters the output. -/
theorem report_render_deterministic
    (renderT : String → ReportData → Except String String)
    (d1 d2 : ReportData) (to1 to2 : String) (smtp1 smtp2 : SmtpOutcome)
    (h : d1 = d2) :
    (send_html_report renderT smtp1 to1 d1).attachedBody
      = (send_html_report renderT smtp2 to2 d2).attachedBody := by
  subst h
  simp only [send_html_report, send_email_run]
  cases templated (fun _ => true) renderT "" false
      (some "summary_report.html") (some d1) <;> rfl

/-- Claim C9 witness: two renders of the same concrete report data, with
different recipients and transport outcomes, attach the same body. -/
theorem report_render_deterministic_witness :
    (send_html_report
        (fun n d => .ok (n ++ ": " ++ d.date)) .ok "a@example.com"
        { date := "October 11, 2026", timestamp := "t",
          total_emails := 0, summaries := [] }).attachedBody
      = (send_html_report
          (fun n d => .ok (n ++ ": " ++ d.date)) .authError "b@example.com"
          { date := "October 11, 2026", timestamp := "t",
            total_emails := 0, summaries := [] }).attachedBody :=
  report_render_deterministic (fun n d => .ok (n ++ ": " ++ d.date))
    { date := "October 11, 2026", timestamp := "t",
      total_emails := 0, summaries := [] }
    { date := "October 11, 2026", timestamp := "t",
      total_emails := 0, summaries := [] }
    "a@example.com" "b@example.com" .ok .authError rfl

/-! ## Pipeline and API surface (main.py) -/

/-- What one run of the pipeline did: every invocation of the Mail
Sender, as the pair (recipient, template variables), and the
`SendResult` obtained (`none` when the run aborted before sending). -/
structure RunLog where
  sendCalls : List (String × ReportData)
  sendResult : Option SendResult
deriving DecidableEq

/-- Embeds `daily_email_report` (main.py lines 193-237).  `now` feeds the
fetcher; `dateStr` and `tsStr` are the two `strftime` renderings of
`datetime.utcnow()` taken at lines 216-217; `report_recipient` is
`os.getenv('REPORT_RECIPIENT_EMAIL')`, with Python truthiness (`None` or
the empty string aborts the run before rendering, line 224).  Every step
of the `try` body is total — each collaborator converts its own
exceptions at a narrower scope — so the `except` at line 236 is
unreachable and the coroutine always returns normally. -/
def daily_email_report (f : GmailFetcherState) (now : Nat)
    (llm : Option LLM) (report_recipient : Option String)
    (dateStr tsStr : String)
    (renderT : String → ReportData → Except String String)
    (smtp : SmtpOutcome) : RunLog :=
  let emails := fetch_recent_emails f now 24
  let summaries :=
    if emails.isEmpty then [] else summarize_emails_batch llm emails
  let report_data : ReportData :=
    { date := dateStr, timestamp := tsStr,
      total_emails := emails.length, summaries := summaries }
  match report_recipient with
  | none => { sendCalls := [], sendResult := none }
  | some r =>
      if r.isEmpty then { sendCalls := [], sendResult := none }
      else
        { sendCalls := [(r, report_data)],
          sendResult := some (send_html_report renderT smtp r report_data).result }

/-- The JSON payload of an HTTP reply from the API. -/
structure HttpReply where
  status : Nat
  success : Bool
  message : String
deriving DecidableEq

/-- Embeds `trigger_manual_report` (main.py lines 176-191): it awaits
`daily_email_report` and returns the success payload; the `except`
clause that would map a raised exception to HTTP 500 is unreachable,
because `daily_email_report` catches every exception internally and
always returns normally. -/
def trigger_manual_report (f : GmailFetcherState) (now : Nat)
    (llm : Option LLM) (report_recipient : Option String)
    (dateStr tsStr : String)
    (renderT : String → ReportData → Except String String)
    (smtp : SmtpOutcome) : HttpReply :=
  let _run := daily_email_report f now llm report_recipient dateStr tsStr
    renderT smtp
  { status := 200, success := true,
    message := "Report generation triggered successfully" }

/-- Claim C3: on a run where the fetch yields zero messages and the
report recipient is configured (non-empty), the pipeline invokes the
Mail Sender exactly once, with a report whose total e-mail count is 0
and whose digest sequence is empty. -/
theorem daily_report_empty_mailbox (f : GmailFetcherState) (now : Nat)
    (llm : Option LLM) (r : String) (dateStr tsStr : String)
    (renderT : String → ReportData → Except String String)
    (smtp : SmtpOutcome)
    (hfetch : fetch_recent_emails f now 24 = [])
    (hr : r.isEmpty = false) :
    (daily_email_report f now llm (some r) dateStr tsStr renderT
        smtp).sendCalls
      = [(r, { date := dateStr, timestamp := tsStr,
               total_emails := 0, summaries := [] })] := by
  simp only [daily_email_report, hfetch, hr, List.isEmpty_nil, if_true,
    List.length_nil, Bool.false_eq_true, if_false]

/-- Claim C3 witness: a concrete fetcher that cannot authenticate
fetches nothing, and the run still sends exactly one zero-count report
to the configured recipient. -/
theorem daily_report_empty_mailbox_witness :
    (daily_email_report
        { serviceCached := false, authOk := false,
          service := { listMessages := fun _ _ => .error "offline",
                       getMessage := fun _ => .error "offline" },
          fmtDate := fun _ => "1970/01/01" }
        0 none (some "ops@example.com") "January 1, 1970"
        "1970-01-01 00:00:00 UTC" (fun _ _ => .ok "<html></html>")
        .ok).sendCalls
      = [("ops@example.com",
          { date := "January 1, 1970",
            timestamp := "1970-01-01 00:00:00 UTC",
            total_emails := 0, summaries := [] })] :=
  daily_report_empty_mailbox
    { serviceCached := false, authOk := false,
      service := { listMessages := fun _ _ => .error "offline",
                   getMessage := fun _ => .error "offline" },
      fmtDate := fun _ => "1970/01/01" }
    0 none "ops@example.com" "January 1, 1970" "1970-01-01 00:00:00 UTC"
    (fun _ _ => .ok "<html></html>") .ok rfl rfl

/-- Claim C7 counterexample: at a concrete input where the transport
rejects authentication, the run fails — its logged `SendResult` has
`success = false` — yet `POST /trigger-report` answers with the HTTP 200
success payload, not an error response: a failing run does not become an
HTTP error. -/
theorem trigger_report_success_despite_failed_run :
    (daily_email_report
        { serviceCached := false, authOk := false,
          service := { listMessages := fun _ _ => .error "offline",
                       getMessage := fun _ => .error "offline" },
          fmtDate := fun _ => "1970/01/01" }
        0 none (some "ops@example.com") "January 1, 1970"
        "1970-01-01 00:00:00 UTC" (fun _ _ => .ok "<html></html>")
        .authError).sendResult
      = some { success := false,
               message := "SMTP authentication failed. Check email credentials." } ∧
    trigger_manual_report
        { serviceCached := false, authOk := false,
          service := { listMessages := fun _ _ => .error "offline",
                       getMessage := fun _ => .error "offline" },
          fmtDate := fun _ => "1970/01/01" }
        0 none (some "ops@example.com") "January 1, 1970"
        "1970-01-01 00:00:00 UTC" (fun _ _ => .ok "<html></html>")
        .authError
      = { status := 200, success := true,
          message := "Report generation triggered successfully" } :=
  ⟨rfl, rfl⟩

/-- Claim C7 as amended: the manual trigger returns the HTTP 200 success
payload for every configuration and every collaborator failure mode,
because `daily_email_report` converts all failures into log lines and
returns normally — only a raised exception would reach the 500 branch,
and none can. -/
theorem trigger_report_always_success (f : GmailFetcherState) (now : Nat)
    (llm : Option LLM) (report_recipient : Option String)
    (dateStr tsStr : String)
    (renderT : String → ReportData → Except String String)
    (smtp : SmtpOutcome) :
    trigger_manual_report f now llm report_recipient dateStr tsStr renderT
        smtp
      = { status := 200, success := true,
          message := "Report generation triggered successfully" } := rfl

/-- The parsed body of a `POST /send-email` request before validation. -/
structure RawEmailRequest where
  to_email : String
  subject : String
  body : String

/-- The `template_vars` dict built by the `/send-email` handler
(main.py lines 161-164). -/
structure AdhocVars where
  subject : String
  body : String

/-- Modelled from the spec: the request-validation boundary of
`POST /send-email`.  The `to_email` field is declared `EmailStr`
(main.py line 37) and the framework (FastAPI/pydantic, external library
code) rejects a body whose `to_email` is not a syntactically valid
address with a 422 validation error before the handler runs; the
validator itself is passed in as `validEmail`.  The handler body
(main.py lines 152-174) is embedded from the source: it calls
`EmailSender.send_email` with the `email_template.html` template and
maps a failed `SendResult` to HTTP 500 (the `HTTPException` raised at
line 170 is itself caught at line 172 and re-wrapped, still as a 500).
The returned list records every invocation of the Mail Sender. -/
def handle_send_email (validEmail : String → Bool)
    (renderT : String → AdhocVars → Except String String)
    (smtp : SmtpOutcome) (req : RawEmailRequest) :
    HttpReply × List (String × AdhocVars) :=
  if validEmail req.to_email then
    let vars : AdhocVars := { subject := req.subject, body := req.body }
    let result := send_email (fun _ => true) renderT smtp req.to_email
      req.subject "" false (some "email_template.html") (some vars)
    (if result.success then
        { status := 200, success := true, message := result.message }
      else
        { status := 500, success := false,
          message := "Internal server error: 500: " ++ result.message },
     [(req.to_email, vars)])
  else
    ({ status := 422, success := false,
       message := "value is not a valid email address" }, [])

/-- Claim C8: a `POST /send-email` whose `to_email` the validator
rejects is answered with a 422 validation error, and the Mail Sender is
never invoked for it. -/
theorem invalid_email_rejected (validEmail : String → Bool)
    (renderT : String → AdhocVars → Except String String)
    (smtp : SmtpOutcome) (req : RawEmailRequest)
    (h : validEmail req.to_email = false) :
    (handle_send_email validEmail renderT smtp req).1.status = 422 ∧
    (handle_send_email validEmail renderT smtp req).2 = [] := by
  rw [handle_send_email, if_neg (by rw [h]; exact Bool.false_ne_true)]
  exact ⟨rfl, rfl⟩

/-- Claim C8 witness: the request of the repository's own
`test_invalid_email`, with `to_email` set to the string
`invalid-email`, against a validator requiring an `@`, gets 422 and
produces no sender call. -/
theorem invalid_email_rejected_witness :
    (handle_send_email (fun s => s.data.contains '@')
        (fun _ v => .ok v.body) .ok
        { to_email := "invalid-email", subject := "Test Email",
          body := "This is a test email body." }).1.status = 422 ∧
    (handle_send_email (fun s => s.data.contains '@')
        (fun _ v => .ok v.body) .ok
        { to_email := "invalid-email", subject := "Test Email",
          body := "This is a test email body." }).2 = [] :=
  invalid_email_rejected (fun s => s.data.contains '@')
    (fun _ v => .ok v.body) .ok
    { to_email := "invalid-email", subject := "Test Email",
      body := "This is a test email body." } (by decide)

end EmailManager
